import Mathlib

/-!
Verification development for the PerceMon STQL runtime monitor.

The repository ships the Python test-suite, an example script and helper
scripts; the percemon core itself (data model, STQL AST, requirements
analyzer, online monitor) is exercised only through its Python binding
surface.  The definitions below are therefore a shallow embedding of that
core, modelled from the design specification and pinned wherever possible
by the behaviour the test-suite asserts.  Real-valued quantities are
modelled with rationals (and with the real square root for the Euclidean
distance); machine floats are not modelled.  The spatial-algebra fragment
of the AST is omitted: the specification documents its evaluator surface
as thin and no property below concerns it.
-/

namespace PerceMon

/-- Modelled from the spec: BoundingBox is a tuple (xmin, xmax, ymin, ymax)
of reals with intended invariant xmin ≤ xmax ∧ ymin ≤ ymax. -/
structure BoundingBox where
  xmin : ℚ
  xmax : ℚ
  ymin : ℚ
  ymax : ℚ
  deriving DecidableEq, Repr

/-- Modelled from the spec: width = xmax − xmin. -/
def BoundingBox.width (b : BoundingBox) : ℚ := b.xmax - b.xmin

/-- Modelled from the spec: height = ymax − ymin. -/
def BoundingBox.height (b : BoundingBox) : ℚ := b.ymax - b.ymin

/-- Modelled from the spec: area = width · height. -/
def BoundingBox.area (b : BoundingBox) : ℚ := b.width * b.height

/-- Modelled from the spec: center = ((xmin+xmax)/2, (ymin+ymax)/2). -/
def BoundingBox.center (b : BoundingBox) : ℚ × ℚ :=
  ((b.xmin + b.xmax) / 2, (b.ymin + b.ymax) / 2)

/-- Modelled from the spec: the five bounding-box reference point types. -/
inductive RefPointType where
  | Center
  | LeftMargin
  | RightMargin
  | TopMargin
  | BottomMargin
  deriving DecidableEq, Repr

/-- Modelled from the spec: get_reference_point projects a bbox onto a single
2-D point, choosing one axis extremum and the other axis center for the
margin types, and both centers for Center.  The concrete coordinates are
pinned by the TestGetReferencePoint tests. -/
def get_reference_point (b : BoundingBox) (r : RefPointType) : ℚ × ℚ :=
  match r with
  | .Center => ((b.xmin + b.xmax) / 2, (b.ymin + b.ymax) / 2)
  | .LeftMargin => (b.xmin, (b.ymin + b.ymax) / 2)
  | .RightMargin => (b.xmax, (b.ymin + b.ymax) / 2)
  | .TopMargin => ((b.xmin + b.xmax) / 2, b.ymin)
  | .BottomMargin => ((b.xmin + b.xmax) / 2, b.ymax)

/-- Modelled from the spec: euclidean_distance between two reference points
is the standard L2 norm of the difference of the projected points. -/
noncomputable def euclidean_distance (b1 : BoundingBox) (r1 : RefPointType)
    (b2 : BoundingBox) (r2 : RefPointType) : ℝ :=
  let p := get_reference_point b1 r1
  let q := get_reference_point b2 r2
  Real.sqrt ((((p.1 - q.1 : ℚ) : ℝ)) ^ 2 + (((p.2 - q.2 : ℚ) : ℝ)) ^ 2)

/-- Modelled from the spec: a detected object. -/
structure Object where
  object_class : ℤ
  probability : ℚ
  bbox : BoundingBox
  deriving DecidableEq, Repr

/-- Modelled from the spec: one perception frame.  The objects mapping from
string IDs to objects is modelled as an association list (the spec states
that the mapping need not preserve insertion order). -/
structure Frame where
  frame_num : ℤ
  timestamp : ℚ
  size_x : ℤ
  size_y : ℤ
  objects : List (String × Object)
  deriving DecidableEq, Repr

/-- Modelled from the spec: universe_bbox() = (0, size_x, 0, size_y). -/
def Frame.universe_bbox (f : Frame) : BoundingBox :=
  ⟨0, (f.size_x : ℚ), 0, (f.size_y : ℚ)⟩

/-- Modelled from the spec: comparison operators for bound expressions. -/
inductive CompareOp where
  | lt
  | le
  | gt
  | ge
  | eq
  | ne
  deriving DecidableEq, Repr

/-- Modelled from the spec: a side of a symbolic TimeDiff, either a time
variable or the distinguished constant C_TIME. -/
inductive TimeTerm where
  | var (name : String)
  | ctime
  deriving DecidableEq, Repr

/-- Modelled from the spec: a side of a symbolic FrameDiff, either a frame
variable or the distinguished constant C_FRAME. -/
inductive FrameTerm where
  | var (name : String)
  | cframe
  deriving DecidableEq, Repr

/-- Modelled from the spec: one freeze binding, capturing either the current
time into a time variable or the current frame number into a frame
variable. -/
inductive FreezeVar where
  | time (name : String)
  | frame (name : String)
  deriving DecidableEq, Repr

/-- Modelled from the spec: the STQL expression tree (Boolean fragment).
Perception atoms carry the object-variable name they test.  The steps
argument of next and previous is stored on the node.  The spatial-algebra
fragment is omitted (no verified property concerns it). -/
inductive Expr where
  | const (b : Bool)
  | timeBound (lhs rhs : TimeTerm) (op : CompareOp) (value : ℚ)
  | frameBound (lhs rhs : FrameTerm) (op : CompareOp) (value : ℤ)
  | isClass (v : String) (c : ℤ)
  | highConfidence (v : String) (threshold : ℚ)
  | lowConfidence (v : String) (threshold : ℚ)
  | notE (e : Expr)
  | andE (xs : List Expr)
  | orE (xs : List Expr)
  | existsE (vs : List String) (body : Expr)
  | forallE (vs : List String) (body : Expr)
  | next (e : Expr) (steps : ℕ)
  | previous (e : Expr) (steps : ℕ)
  | always (e : Expr)
  | eventually (e : Expr)
  | untilE (a b : Expr)
  | sinceE (a b : Expr)
  | freeze (bs : List FreezeVar) (body : Expr)

/-- Factory make_true() of the binding surface. -/
def make_true : Expr := Expr.const true

/-- Factory make_false() of the binding surface. -/
def make_false : Expr := Expr.const false

/-- Modelled from the spec: UNBOUNDED is a public integer constant with a
stable value ≥ 10⁶ (the tests require it to exceed 1,000,000). -/
def UNBOUNDED : ℕ := 1000000000

/-- Modelled from the spec: saturating addition of frame counts.  Any
arithmetic involving UNBOUNDED yields UNBOUNDED, and requirement counts
are either plain non-negative frame counts or the sentinel, so sums are
capped at the sentinel. -/
def satAdd (a b : ℕ) : ℕ := min (a + b) UNBOUNDED

/-- Modelled from the spec: converting a duration in seconds to a
non-negative frame count uses ceil(t · fps), capped at the sentinel. -/
def framesOfSeconds (t : ℚ) (fps : ℚ) : ℕ := min (Int.toNat ⌈t * fps⌉) UNBOUNDED

/-- Modelled from the spec: requirement counts for a time/frame bound leaf.
The bound contributes to history or horizon depending on the sign of the
symbolic diff: a diff of the shape C_TIME − x (current minus a captured,
hence earlier, instant) is past-anchored and contributes to history, while
x − C_TIME is future-anchored and contributes to horizon. -/
def timeBoundReqs (lhs rhs : TimeTerm) (value : ℚ) (fps : ℚ) : ℕ × ℕ :=
  match lhs, rhs with
  | .ctime, _ => (framesOfSeconds value fps, 0)
  | _, .ctime => (0, framesOfSeconds value fps)
  | _, _ => (0, 0)

/-- Modelled from the spec: requirement counts for a frame bound leaf; the
value is already a frame count. -/
def frameBoundReqs (lhs rhs : FrameTerm) (value : ℤ) : ℕ × ℕ :=
  match lhs, rhs with
  | .cframe, _ => (min value.toNat UNBOUNDED, 0)
  | _, .cframe => (0, min value.toNat UNBOUNDED)
  | _, _ => (0, 0)

mutual

/-- Modelled from the spec: the post-order requirements fold, returning the
pair (history, horizon) in frames.  Leaves need nothing; negation,
quantifiers and freeze inherit from the child; conjunction and disjunction
aggregate with max; previous and next add their step count to history
respectively horizon; always, eventually and until have unbounded horizon;
since has unbounded history. -/
def reqsAux : Expr → ℚ → ℕ × ℕ
  | .const _, _ => (0, 0)
  | .timeBound lhs rhs _ value, fps => timeBoundReqs lhs rhs value fps
  | .frameBound lhs rhs _ value, _ => frameBoundReqs lhs rhs value
  | .isClass _ _, _ => (0, 0)
  | .highConfidence _ _, _ => (0, 0)
  | .lowConfidence _ _, _ => (0, 0)
  | .notE e, fps => reqsAux e fps
  | .andE xs, fps => reqsList xs fps
  | .orE xs, fps => reqsList xs fps
  | .existsE _ body, fps => reqsAux body fps
  | .forallE _ body, fps => reqsAux body fps
  | .next e k, fps =>
      let r := reqsAux e fps
      (r.1, satAdd k r.2)
  | .previous e k, fps =>
      let r := reqsAux e fps
      (satAdd k r.1, r.2)
  | .always e, fps => ((reqsAux e fps).1, UNBOUNDED)
  | .eventually e, fps => ((reqsAux e fps).1, UNBOUNDED)
  | .untilE a b, fps =>
      let ra := reqsAux a fps
      let rb := reqsAux b fps
      (max ra.1 rb.1, UNBOUNDED)
  | .sinceE a b, fps =>
      let ra := reqsAux a fps
      let rb := reqsAux b fps
      (UNBOUNDED, max ra.2 rb.2)
  | .freeze _ body, fps => reqsAux body fps

/-- Modelled from the spec: componentwise max-aggregation of requirement
pairs over the operand list of a conjunction or disjunction. -/
def reqsList : List Expr → ℚ → ℕ × ℕ
  | [], _ => (0, 0)
  | x :: xs, fps =>
      let r := reqsAux x fps
      let s := reqsList xs fps
      (max r.1 s.1, max r.2 s.2)

end

/-- History struct of the binding surface: a frame count. -/
structure History where
  frames : ℕ
  deriving DecidableEq, Repr

/-- Modelled from the spec: History.is_bounded() is false exactly on the
sentinel. -/
def History.is_bounded (h : History) : Bool := decide (h.frames < UNBOUNDED)

/-- Horizon struct of the binding surface: a frame count. -/
structure Horizon where
  frames : ℕ
  deriving DecidableEq, Repr

/-- Modelled from the spec: Horizon.is_bounded() is false exactly on the
sentinel. -/
def Horizon.is_bounded (h : Horizon) : Bool := decide (h.frames < UNBOUNDED)

/-- Modelled from the spec: the record returned by compute_requirements. -/
structure MonitoringRequirements where
  history : History
  horizon : Horizon
  deriving DecidableEq, Repr

/-- Modelled from the spec: compute_requirements(formula, fps) folds the AST
into a (history, horizon) record. -/
def compute_requirements (e : Expr) (fps : ℚ) : MonitoringRequirements :=
  let r := reqsAux e fps
  ⟨⟨r.1⟩, ⟨r.2⟩⟩

/-- Modelled from the spec: the fps parameter defaults to 1.0 when omitted
(pinned by test_default_fps). -/
def defaultFps : ℚ := 1

/-- Modelled from the spec: compute_requirements(formula) with the fps
argument omitted uses the default frame rate. -/
def compute_requirements_default (e : Expr) : MonitoringRequirements :=
  compute_requirements e defaultFps

/-- Modelled from the spec: is_past_time_formula(formula) is true iff the
horizon is zero; the binding takes no fps argument, so the default frame
rate is used. -/
def is_past_time_formula (e : Expr) : Bool :=
  decide ((compute_requirements_default e).horizon.frames = 0)

/-- Modelled from the spec: the evaluation environment, mapping
object-variable names to object IDs and freeze-captured time/frame
variables to their captured values. -/
structure Env where
  objs : String → Option String
  times : String → Option ℚ
  framesV : String → Option ℤ

/-- The empty environment used at the start of each tick. -/
def Env.empty : Env := ⟨fun _ => none, fun _ => none, fun _ => none⟩

/-- Extend the environment with an object-variable binding. -/
def Env.bindObj (env : Env) (v objId : String) : Env :=
  { env with objs := fun n => if n = v then some objId else env.objs n }

/-- Extend the environment with a freeze-captured binding taken from the
given frame. -/
def Env.bindFreeze (env : Env) (b : FreezeVar) (f : Frame) : Env :=
  match b with
  | .time n => { env with times := fun m => if m = n then some f.timestamp else env.times m }
  | .frame n => { env with framesV := fun m => if m = n then some f.frame_num else env.framesV m }

/-- Modelled from the spec: compare a symbolic difference with a literal
value using the bound operator. -/
def CompareOp.holds {α : Type} [LinearOrder α] (op : CompareOp) (d v : α) : Bool :=
  match op with
  | .lt => decide (d < v)
  | .le => decide (d ≤ v)
  | .gt => decide (v < d)
  | .ge => decide (v ≤ d)
  | .eq => decide (d = v)
  | .ne => decide (d ≠ v)

/-- Evaluate a symbolic time term in the environment at the given frame:
C_TIME is the timestamp of the current tick, a variable looks up its captured
value.  An unbound variable yields none. -/
def evalTimeTerm (env : Env) (f : Frame) : TimeTerm → Option ℚ
  | .var n => env.times n
  | .ctime => some f.timestamp

/-- Evaluate a symbolic frame term in the environment at the given frame:
C_FRAME is the frame number of the current tick. -/
def evalFrameTerm (env : Env) (f : Frame) : FrameTerm → Option ℤ
  | .var n => env.framesV n
  | .cframe => some f.frame_num

/-- Look up the object currently bound to an object variable in the given
frame; none when the variable is unbound or the ID is absent from the
frame. -/
def lookupObject (env : Env) (f : Frame) (v : String) : Option Object :=
  match env.objs v with
  | none => none
  | some objId => f.objects.lookup objId

/-- Object IDs present in the frame under evaluation; empty when the index
lies outside the pushed prefix. -/
def currentIds (frames : List Frame) (i : ℕ) : List String :=
  match frames[i]? with
  | some f => f.objects.map Prod.fst
  | none => []

/-- Modelled from the spec: quantified variables range over the object IDs
present in the current frame.  This enumerates every environment obtained
by binding each quantified variable to one of the given object IDs, in
order. -/
def envAssignments (ids : List String) (env : Env) : List String → List Env
  | [] => [env]
  | v :: vs => ids.flatMap fun objId => envAssignments ids (env.bindObj v objId) vs

mutual

/-- Modelled from the spec: the recursive Boolean interpreter over the AST.
The argument frames is the sequence of frames pushed so far in arrival
order and i is the index of the frame under evaluation.  Missing future
frames are treated as ⊥ for next, eventually and the right argument of
until, and as ⊤ for always (the tail of the window conjunction simply
stops); previous before the stream start is ⊥; an unbound variable or a
frame index outside the pushed prefix yields ⊥. -/
def evalExpr (frames : List Frame) (i : ℕ) (env : Env) : Expr → Bool
  | .const b => b
  | .timeBound lhs rhs op value =>
      match frames[i]? with
      | none => false
      | some f =>
          match evalTimeTerm env f lhs, evalTimeTerm env f rhs with
          | some l, some r => op.holds (l - r) value
          | _, _ => false
  | .frameBound lhs rhs op value =>
      match frames[i]? with
      | none => false
      | some f =>
          match evalFrameTerm env f lhs, evalFrameTerm env f rhs with
          | some l, some r => op.holds (l - r) value
          | _, _ => false
  | .isClass v c =>
      match frames[i]? with
      | none => false
      | some f =>
          match lookupObject env f v with
          | some obj => decide (obj.object_class = c)
          | none => false
  | .highConfidence v t =>
      match frames[i]? with
      | none => false
      | some f =>
          match lookupObject env f v with
          | some obj => decide (t ≤ obj.probability)
          | none => false
  | .lowConfidence v t =>
      match frames[i]? with
      | none => false
      | some f =>
          match lookupObject env f v with
          | some obj => decide (obj.probability ≤ t)
          | none => false
  | .notE e => ! evalExpr frames i env e
  | .andE xs => evalAll frames i env xs
  | .orE xs => evalAny frames i env xs
  | .existsE vs body =>
      (envAssignments (currentIds frames i) env vs).any fun env2 =>
        evalExpr frames i env2 body
  | .forallE vs body =>
      (envAssignments (currentIds frames i) env vs).all fun env2 =>
        evalExpr frames i env2 body
  | .next e k =>
      if i + k < frames.length then evalExpr frames (i + k) env e else false
  | .previous e k =>
      if k ≤ i then evalExpr frames (i - k) env e else false
  | .always e =>
      (List.range (frames.length - i)).all fun d => evalExpr frames (i + d) env e
  | .eventually e =>
      (List.range (frames.length - i)).any fun d => evalExpr frames (i + d) env e
  | .untilE a b =>
      (List.range (frames.length - i)).any fun d =>
        evalExpr frames (i + d) env b &&
          (List.range d).all fun j => evalExpr frames (i + j) env a
  | .sinceE a b =>
      (List.range (i + 1)).any fun d =>
        evalExpr frames (i - d) env b &&
          (List.range d).all fun j => evalExpr frames (i - j) env a
  | .freeze bs body =>
      match frames[i]? with
      | none => false
      | some f => evalExpr frames i (bs.foldl (fun acc b => acc.bindFreeze b f) env) body

/-- Conjunction over an operand list. -/
def evalAll (frames : List Frame) (i : ℕ) (env : Env) : List Expr → Bool
  | [] => true
  | x :: xs => evalExpr frames i env x && evalAll frames i env xs

/-- Disjunction over an operand list. -/
def evalAny (frames : List Frame) (i : ℕ) (env : Env) : List Expr → Bool
  | [] => false
  | x :: xs => evalExpr frames i env x || evalAny frames i env xs

end

/-- Modelled from the spec: the closed error taxonomy of the monitor
surface (the two kinds reachable through the monitor interface). -/
inductive MonitorError where
  | notMonitorable (horizon : ℕ)
  | outOfOrderFrame (got last : ℤ)
  deriving DecidableEq, Repr

/-- Modelled from the spec: the online monitor state — the formula, the
frame rate, the window of pushed frames in arrival order, the frame number
of the most recently pushed frame, and the terminal error state. -/
structure OnlineMonitor where
  phi : Expr
  fps : ℚ
  window : List Frame
  lastFrameNum : Option ℤ
  errState : Option MonitorError

/-- Modelled from the spec: the freshly constructed monitor state for a
formula and frame rate (before any monitorability check). -/
def OnlineMonitor.ofFormula (phi : Expr) (fps : ℚ) : OnlineMonitor :=
  ⟨phi, fps, [], none, none⟩

/-- Modelled from the spec: is_monitorable() is true iff the horizon is
strictly below UNBOUNDED. -/
def OnlineMonitor.is_monitorable (m : OnlineMonitor) : Bool :=
  decide ((compute_requirements m.phi m.fps).horizon.frames < UNBOUNDED)

/-- Modelled from the spec: requirements() returns the analyzer record for
the monitored formula. -/
def OnlineMonitor.requirements (m : OnlineMonitor) : MonitoringRequirements :=
  compute_requirements m.phi m.fps

/-- Modelled from the spec: OnlineMonitor construction rejects a formula
with unbounded future by raising NotMonitorable. -/
def mkOnlineMonitor (phi : Expr) (fps : ℚ) : Except MonitorError OnlineMonitor :=
  let r := compute_requirements phi fps
  if r.horizon.frames < UNBOUNDED then
    Except.ok (OnlineMonitor.ofFormula phi fps)
  else
    Except.error (MonitorError.notMonitorable r.horizon.frames)

/-- Modelled from the spec: OnlineMonitor construction with the fps
argument omitted uses the default frame rate. -/
def mkOnlineMonitorDefault (phi : Expr) : Except MonitorError OnlineMonitor :=
  mkOnlineMonitor phi defaultFps

/-- Modelled from the spec: push a frame into the window and evaluate the
formula on the committed frame at position now − horizon; during warmup the
clamped index gives the provisional verdict of the stated policy. -/
def OnlineMonitor.pushFrame (m : OnlineMonitor) (f : Frame) :
    OnlineMonitor × Except MonitorError Bool :=
  let w := m.window ++ [f]
  let horizonF := (compute_requirements m.phi m.fps).horizon.frames
  let c := w.length - 1 - horizonF
  ({ m with window := w, lastFrameNum := some f.frame_num },
    Except.ok (evalExpr w c Env.empty m.phi))

/-- Modelled from the spec: evaluate(frame) pushes a frame and returns the
verdict; a frame whose frame_num goes backwards transitions the monitor to
the terminal ERROR state and every later call returns the same error.  The
order check is strict decrease only: test_consecutive_evaluations pushes
the same frame_num repeatedly and expects verdicts, not errors, so equal
frame numbers are accepted. -/
def OnlineMonitor.evaluate (m : OnlineMonitor) (f : Frame) :
    OnlineMonitor × Except MonitorError Bool :=
  match m.errState with
  | some e => (m, Except.error e)
  | none =>
      match m.lastFrameNum with
      | some last =>
          if f.frame_num < last then
            let e := MonitorError.outOfOrderFrame f.frame_num last
            ({ m with errState := some e }, Except.error e)
          else
            m.pushFrame f
      | none => m.pushFrame f

/-- Drive a monitor over a frame sequence, collecting the per-tick
results. -/
def runMonitor (m : OnlineMonitor) : List Frame → List (Except MonitorError Bool)
  | [] => []
  | f :: fs =>
      let step := m.evaluate f
      step.2 :: runMonitor step.1 fs

/-- Fixture: the sample bounding box (100, 200, 50, 150) of the
test-suite. -/
def sampleBox : BoundingBox := ⟨100, 200, 50, 150⟩

/-- Fixture: a class-1 object with probability 0.9 on the sample box. -/
def carObject : Object := ⟨1, 9 / 10, sampleBox⟩

/-- Fixture: the empty frame with frame_num 0. -/
def emptyFrame0 : Frame := ⟨0, 0, 1920, 1080, []⟩

/-- Fixture: frame 1 containing one class-1 object. -/
def carFrame1 : Frame := ⟨1, 1 / 30, 1920, 1080, [("car_1", carObject)]⟩

/-- Fixture: the empty frame with frame_num 2. -/
def emptyFrame2 : Frame := ⟨2, 1 / 15, 1920, 1080, []⟩

/-- Fixture: frame 0 containing one class-1 object with probability 0.95,
mirroring the frame_with_object fixture of conftest.py. -/
def frameWithObject : Frame := ⟨0, 0, 1920, 1080, [("car_1", ⟨1, 19 / 20, sampleBox⟩)]⟩

/-- Fixture: the formula Previous(Exists([car], IsClass(car, 1))). -/
def phiPrevCar : Expr := Expr.previous (Expr.existsE ["car"] (Expr.isClass "car" 1)) 1

/-- C1: for Previous(Exists([car], IsClass(car, 1))) at fps 30 the analyzer
yields history 1 and horizon 0, construction succeeds, the three-frame
sequence empty / class-1 object / empty yields the verdicts false, false,
true, and on the very first frame Previous evaluates to false because the
stream has no earlier frame. -/
theorem c1_previous_three_frame_verdicts :
    compute_requirements phiPrevCar 30 = ⟨⟨1⟩, ⟨0⟩⟩ ∧
    mkOnlineMonitor phiPrevCar 30 = Except.ok (OnlineMonitor.ofFormula phiPrevCar 30) ∧
    runMonitor (OnlineMonitor.ofFormula phiPrevCar 30) [emptyFrame0, carFrame1, emptyFrame2]
      = [Except.ok false, Except.ok false, Except.ok true] ∧
    evalExpr [emptyFrame0] 0 Env.empty phiPrevCar = false :=
  ⟨rfl, rfl, rfl, rfl⟩

/-- C2: every formula whose top-level operator is Eventually has horizon
UNBOUNDED, is not monitorable, and OnlineMonitor construction rejects it
with NotMonitorable. -/
theorem c2_eventually_rejected (x : Expr) (fps : ℚ) :
    (compute_requirements (Expr.eventually x) fps).horizon.frames = UNBOUNDED ∧
    (OnlineMonitor.ofFormula (Expr.eventually x) fps).is_monitorable = false ∧
    mkOnlineMonitor (Expr.eventually x) fps
      = Except.error (MonitorError.notMonitorable UNBOUNDED) := by
  refine ⟨rfl, ?_, ?_⟩
  · simp [OnlineMonitor.is_monitorable, OnlineMonitor.ofFormula, compute_requirements, reqsAux]
  · simp [mkOnlineMonitor, compute_requirements, reqsAux]

/-- C3: is_past_time_formula is true exactly when the computed horizon is
zero; in particular it is true for constants and for Previous over the
test formula True, and false for Next and Eventually over any body. -/
theorem c3_past_time_correspondence :
    (∀ e : Expr,
      is_past_time_formula e = true ↔ (compute_requirements_default e).horizon.frames = 0) ∧
    (∀ b : Bool, is_past_time_formula (Expr.const b) = true) ∧
    is_past_time_formula (Expr.previous make_true 1) = true ∧
    (∀ x : Expr, ∀ k : ℕ, is_past_time_formula (Expr.next x (k + 1)) = false) ∧
    (∀ x : Expr, is_past_time_formula (Expr.eventually x) = false) := by
  refine ⟨fun e => ?_, fun b => rfl, rfl, fun x k => ?_, fun x => ?_⟩
  · simp [is_past_time_formula]
  · simp only [is_past_time_formula, compute_requirements_default, compute_requirements,
      reqsAux, satAdd, UNBOUNDED, decide_eq_false_iff_not]
    omega
  · simp [is_past_time_formula, compute_requirements_default, compute_requirements,
      reqsAux, UNBOUNDED]

/-- C4: the requirements fold treats the step operators symmetrically: for
strictly positive k, Previous adds k to the history of the body with the
saturating addition of the analyzer and leaves the horizon unchanged,
while Next leaves the history unchanged and adds k to the horizon; below
the UNBOUNDED sentinel the saturating addition is plain addition. -/
theorem c4_step_operators_symmetric (x : Expr) (k : ℕ) (fps : ℚ) (_hk : 0 < k) :
    (compute_requirements (Expr.previous x k) fps).history.frames
        = satAdd k (compute_requirements x fps).history.frames ∧
    (compute_requirements (Expr.previous x k) fps).horizon
        = (compute_requirements x fps).horizon ∧
    (compute_requirements (Expr.next x k) fps).history
        = (compute_requirements x fps).history ∧
    (compute_requirements (Expr.next x k) fps).horizon.frames
        = satAdd k (compute_requirements x fps).horizon.frames ∧
    (k + (compute_requirements x fps).history.frames ≤ UNBOUNDED →
      (compute_requirements (Expr.previous x k) fps).history.frames
        = k + (compute_requirements x fps).history.frames) ∧
    (k + (compute_requirements x fps).horizon.frames ≤ UNBOUNDED →
      (compute_requirements (Expr.next x k) fps).horizon.frames
        = k + (compute_requirements x fps).horizon.frames) := by
  refine ⟨rfl, rfl, rfl, rfl, fun h => ?_, fun h => ?_⟩
  · exact Nat.min_eq_left h
  · exact Nat.min_eq_left h

/-- Witness for C4 at the test instances previous(True, 3) and
next(True, 5) at fps 30. -/
theorem c4_witness :
    (compute_requirements (Expr.previous make_true 3) 30).history.frames
      = 3 + (compute_requirements make_true 30).history.frames ∧
    (compute_requirements (Expr.next make_true 5) 30).horizon.frames
      = 5 + (compute_requirements make_true 30).horizon.frames :=
  ⟨(c4_step_operators_symmetric make_true 3 30 (by decide)).2.2.2.2.1 (by decide),
   (c4_step_operators_symmetric make_true 5 30 (by decide)).2.2.2.2.2 (by decide)⟩

/-- C5 counterexample: as pinned by test_consecutive_evaluations, pushing
the same frame (hence a frame_num equal to, not greater than, the previous
one) three times yields the verdict true each time instead of an
OutOfOrderFrame error, so a frame whose frame_num merely equals the
previous one does not error. -/
theorem c5_counterexample_equal_frame_num_accepted :
    (let m0 := OnlineMonitor.ofFormula make_true defaultFps
     let s1 := m0.evaluate frameWithObject
     let s2 := s1.1.evaluate frameWithObject
     let s3 := s2.1.evaluate frameWithObject
     s1.2 = Except.ok true ∧ s2.2 = Except.ok true ∧ s3.2 = Except.ok true) :=
  ⟨rfl, rfl, rfl⟩

/-- C5 (amended): pushing a frame whose frame_num is strictly less than the
previously pushed frame_num makes evaluate fail with OutOfOrderFrame,
transitions the monitor to the terminal ERROR state, and every subsequent
evaluate call returns this same error; a frame_num equal to the previous
one is accepted. -/
theorem c5_out_of_order_frame_is_terminal (m : OnlineMonitor) (last : ℤ) (f f2 : Frame)
    (he : m.errState = none) (hl : m.lastFrameNum = some last)
    (hlt : f.frame_num < last) :
    (m.evaluate f).2 = Except.error (MonitorError.outOfOrderFrame f.frame_num last) ∧
    (m.evaluate f).1.errState = some (MonitorError.outOfOrderFrame f.frame_num last) ∧
    ((m.evaluate f).1.evaluate f2).2
      = Except.error (MonitorError.outOfOrderFrame f.frame_num last) := by
  have hstep : m.evaluate f
      = ({ m with errState := some (MonitorError.outOfOrderFrame f.frame_num last) },
         Except.error (MonitorError.outOfOrderFrame f.frame_num last)) := by
    simp [OnlineMonitor.evaluate, he, hl, hlt]
  refine ⟨by rw [hstep], by rw [hstep], ?_⟩
  rw [hstep]
  simp [OnlineMonitor.evaluate]

/-- Witness for C5 (amended): after pushing frame 1, pushing frame 0 errors
and the error is terminal. -/
theorem c5_witness :
    (let m1 := ((OnlineMonitor.ofFormula make_true defaultFps).evaluate carFrame1).1
     (m1.evaluate emptyFrame0).2 = Except.error (MonitorError.outOfOrderFrame 0 1) ∧
     (m1.evaluate emptyFrame0).1.errState = some (MonitorError.outOfOrderFrame 0 1) ∧
     ((m1.evaluate emptyFrame0).1.evaluate emptyFrame2).2
       = Except.error (MonitorError.outOfOrderFrame 0 1)) :=
  c5_out_of_order_frame_is_terminal
    ((OnlineMonitor.ofFormula make_true defaultFps).evaluate carFrame1).1
    1 emptyFrame0 emptyFrame2 rfl rfl (by decide)

/-- C7: monitoring is deterministic — two monitor instances constructed
from the same formula and fps and fed the same frame sequence produce
identical verdicts at every tick. -/
theorem c7_determinism (phi : Expr) (fps : ℚ) (frames : List Frame)
    (m1 m2 : OnlineMonitor)
    (h1 : m1 = OnlineMonitor.ofFormula phi fps)
    (h2 : m2 = OnlineMonitor.ofFormula phi fps) :
    runMonitor m1 frames = runMonitor m2 frames := by
  rw [h1, h2]

/-- Witness for C7 on the frame_sequence fixture with the exists-car
formula at fps 30. -/
theorem c7_witness :
    runMonitor (OnlineMonitor.ofFormula (Expr.existsE ["car"] (Expr.isClass "car" 1)) 30)
        [emptyFrame0, carFrame1, emptyFrame2]
      = runMonitor (OnlineMonitor.ofFormula (Expr.existsE ["car"] (Expr.isClass "car" 1)) 30)
        [emptyFrame0, carFrame1, emptyFrame2] :=
  c7_determinism (Expr.existsE ["car"] (Expr.isClass "car" 1)) 30
    [emptyFrame0, carFrame1, emptyFrame2] _ _ rfl rfl

/-- C10: omitting the fps argument uses the default frame rate 1.0: the
requirements record with the argument omitted has exactly the frame counts
of an explicit fps of 1.0 for every formula, and an OnlineMonitor can be
constructed without an fps argument. -/
theorem c10_default_fps_is_one :
    (∀ e : Expr,
      (compute_requirements_default e).history.frames
          = (compute_requirements e 1).history.frames ∧
      (compute_requirements_default e).horizon.frames
          = (compute_requirements e 1).horizon.frames) ∧
    (∀ phi : Expr, mkOnlineMonitorDefault phi = mkOnlineMonitor phi 1) ∧
    mkOnlineMonitorDefault phiPrevCar
      = Except.ok (OnlineMonitor.ofFormula phiPrevCar defaultFps) :=
  ⟨fun _ => ⟨rfl, rfl⟩, fun _ => rfl, rfl⟩

mutual

/-- All requirement counts produced by the fold are capped at the UNBOUNDED
sentinel. -/
theorem reqsAux_le_unbounded (e : Expr) (fps : ℚ) :
    (reqsAux e fps).1 ≤ UNBOUNDED ∧ (reqsAux e fps).2 ≤ UNBOUNDED := by
  cases e with
  | const b => exact ⟨Nat.zero_le _, Nat.zero_le _⟩
  | timeBound lhs rhs op value =>
      cases lhs <;> cases rhs <;> constructor <;>
        first
        | exact Nat.min_le_right _ _
        | exact Nat.zero_le _
  | frameBound lhs rhs op value =>
      cases lhs <;> cases rhs <;> constructor <;>
        first
        | exact Nat.min_le_right _ _
        | exact Nat.zero_le _
  | isClass v c => exact ⟨Nat.zero_le _, Nat.zero_le _⟩
  | highConfidence v t => exact ⟨Nat.zero_le _, Nat.zero_le _⟩
  | lowConfidence v t => exact ⟨Nat.zero_le _, Nat.zero_le _⟩
  | notE e => exact reqsAux_le_unbounded e fps
  | andE xs => exact reqsList_le_unbounded xs fps
  | orE xs => exact reqsList_le_unbounded xs fps
  | existsE vs body => exact reqsAux_le_unbounded body fps
  | forallE vs body => exact reqsAux_le_unbounded body fps
  | next e k => exact ⟨(reqsAux_le_unbounded e fps).1, Nat.min_le_right _ _⟩
  | previous e k => exact ⟨Nat.min_le_right _ _, (reqsAux_le_unbounded e fps).2⟩
  | always e => exact ⟨(reqsAux_le_unbounded e fps).1, Nat.le_refl _⟩
  | eventually e => exact ⟨(reqsAux_le_unbounded e fps).1, Nat.le_refl _⟩
  | untilE a b =>
      exact ⟨max_le (reqsAux_le_unbounded a fps).1 (reqsAux_le_unbounded b fps).1,
        Nat.le_refl _⟩
  | sinceE a b =>
      exact ⟨Nat.le_refl _,
        max_le (reqsAux_le_unbounded a fps).2 (reqsAux_le_unbounded b fps).2⟩
  | freeze bs body => exact reqsAux_le_unbounded body fps

/-- The aggregated requirement counts of an operand list are capped at the
UNBOUNDED sentinel. -/
theorem reqsList_le_unbounded (xs : List Expr) (fps : ℚ) :
    (reqsList xs fps).1 ≤ UNBOUNDED ∧ (reqsList xs fps).2 ≤ UNBOUNDED := by
  cases xs with
  | nil => exact ⟨Nat.zero_le _, Nat.zero_le _⟩
  | cons x xs =>
      exact ⟨max_le (reqsAux_le_unbounded x fps).1 (reqsList_le_unbounded xs fps).1,
        max_le (reqsAux_le_unbounded x fps).2 (reqsList_le_unbounded xs fps).2⟩

end

/-- Each operand of a conjunction or disjunction contributes at most the
aggregated requirement counts. -/
theorem reqsList_component_le {x : Expr} {xs : List Expr} (hx : x ∈ xs) (fps : ℚ) :
    (reqsAux x fps).1 ≤ (reqsList xs fps).1 ∧ (reqsAux x fps).2 ≤ (reqsList xs fps).2 := by
  induction xs with
  | nil => cases hx
  | cons y ys ih =>
      rcases List.mem_cons.mp hx with h | h
      · subst h
        exact ⟨le_max_left _ _, le_max_left _ _⟩
      · exact ⟨le_trans (ih h).1 (le_max_right _ _), le_trans (ih h).2 (le_max_right _ _)⟩

/-- Direct sub-formula relation on the STQL AST: one step into a child
node. -/
inductive IsChild : Expr → Expr → Prop where
  | notE (e : Expr) : IsChild e (Expr.notE e)
  | andE {x : Expr} {xs : List Expr} (h : x ∈ xs) : IsChild x (Expr.andE xs)
  | orE {x : Expr} {xs : List Expr} (h : x ∈ xs) : IsChild x (Expr.orE xs)
  | existsE (vs : List String) (body : Expr) : IsChild body (Expr.existsE vs body)
  | forallE (vs : List String) (body : Expr) : IsChild body (Expr.forallE vs body)
  | next (e : Expr) (k : ℕ) : IsChild e (Expr.next e k)
  | previous (e : Expr) (k : ℕ) : IsChild e (Expr.previous e k)
  | always (e : Expr) : IsChild e (Expr.always e)
  | eventually (e : Expr) : IsChild e (Expr.eventually e)
  | untilL (a b : Expr) : IsChild a (Expr.untilE a b)
  | untilR (a b : Expr) : IsChild b (Expr.untilE a b)
  | sinceL (a b : Expr) : IsChild a (Expr.sinceE a b)
  | sinceR (a b : Expr) : IsChild b (Expr.sinceE a b)
  | freeze (bs : List FreezeVar) (body : Expr) : IsChild body (Expr.freeze bs body)

/-- Sub-formula relation: the reflexive-transitive closure of the direct
child relation. -/
def Subformula (psi phi : Expr) : Prop := Relation.ReflTransGen IsChild psi phi

/-- One step into a child never increases either requirement count. -/
theorem IsChild.reqs_le {psi phi : Expr} (h : IsChild psi phi) (fps : ℚ) :
    (reqsAux psi fps).1 ≤ (reqsAux phi fps).1 ∧
    (reqsAux psi fps).2 ≤ (reqsAux phi fps).2 := by
  cases h with
  | notE => exact ⟨le_rfl, le_rfl⟩
  | andE hmem => exact reqsList_component_le hmem fps
  | orE hmem => exact reqsList_component_le hmem fps
  | existsE => exact ⟨le_rfl, le_rfl⟩
  | forallE => exact ⟨le_rfl, le_rfl⟩
  | next =>
      exact ⟨le_rfl, le_min (Nat.le_add_left _ _) (reqsAux_le_unbounded psi fps).2⟩
  | previous =>
      exact ⟨le_min (Nat.le_add_left _ _) (reqsAux_le_unbounded psi fps).1, le_rfl⟩
  | always => exact ⟨le_rfl, (reqsAux_le_unbounded psi fps).2⟩
  | eventually => exact ⟨le_rfl, (reqsAux_le_unbounded psi fps).2⟩
  | untilL => exact ⟨le_max_left _ _, (reqsAux_le_unbounded psi fps).2⟩
  | untilR => exact ⟨le_max_right _ _, (reqsAux_le_unbounded psi fps).2⟩
  | sinceL => exact ⟨(reqsAux_le_unbounded psi fps).1, le_max_left _ _⟩
  | sinceR => exact ⟨(reqsAux_le_unbounded psi fps).1, le_max_right _ _⟩
  | freeze => exact ⟨le_rfl, le_rfl⟩

/-- C6: requirements are monotone under the sub-formula relation — a
sub-formula never needs more history or horizon than the formula that
contains it; quantifier, negation and freeze nodes inherit the
requirements of their body unchanged. -/
theorem c6_requirements_monotone (fps : ℚ) (phi psi : Expr) (h : Subformula psi phi) :
    (compute_requirements psi fps).history.frames
        ≤ (compute_requirements phi fps).history.frames ∧
    (compute_requirements psi fps).horizon.frames
        ≤ (compute_requirements phi fps).horizon.frames := by
  induction h with
  | refl => exact ⟨le_rfl, le_rfl⟩
  | tail hsub hchild ih =>
      have hc := IsChild.reqs_le hchild fps
      exact ⟨le_trans ih.1 hc.1, le_trans ih.2 hc.2⟩

/-- Witness for C6: the next-body of the quantified test formula needs no
more than the whole formula. -/
theorem c6_witness :
    (compute_requirements (Expr.next (Expr.isClass "car" 1) 1) 1).history.frames
        ≤ (compute_requirements
            (Expr.existsE ["car"] (Expr.next (Expr.isClass "car" 1) 1)) 1).history.frames ∧
    (compute_requirements (Expr.next (Expr.isClass "car" 1) 1) 1).horizon.frames
        ≤ (compute_requirements
            (Expr.existsE ["car"] (Expr.next (Expr.isClass "car" 1) 1)) 1).horizon.frames :=
  c6_requirements_monotone 1
    (Expr.existsE ["car"] (Expr.next (Expr.isClass "car" 1) 1))
    (Expr.next (Expr.isClass "car" 1) 1)
    (Relation.ReflTransGen.single (IsChild.existsE _ _))

/-- Fixture: the box (0, 100, 0, 100) of the distance tests. -/
def boxA : BoundingBox := ⟨0, 100, 0, 100⟩

/-- Fixture: the box (100, 200, 0, 100) of the horizontal distance test. -/
def boxB : BoundingBox := ⟨100, 200, 0, 100⟩

/-- Fixture: the box (100, 200, 100, 200) of the diagonal distance test. -/
def boxD : BoundingBox := ⟨100, 200, 100, 200⟩

/-- C8: for every bounding box satisfying the xmin ≤ xmax and ymin ≤ ymax
invariant, width and height are non-negative, the area is their product
and the center lies within the box; concretely the box (100, 200, 50, 150)
has width 100, height 100, area 10000 and center (150, 100). -/
theorem c8_bounding_box_geometry :
    (∀ b : BoundingBox, b.xmin ≤ b.xmax → b.ymin ≤ b.ymax →
      0 ≤ b.width ∧ 0 ≤ b.height ∧ b.area = b.width * b.height ∧
      b.xmin ≤ b.center.1 ∧ b.center.1 ≤ b.xmax ∧
      b.ymin ≤ b.center.2 ∧ b.center.2 ≤ b.ymax) ∧
    sampleBox.width = 100 ∧ sampleBox.height = 100 ∧
    sampleBox.area = 10000 ∧ sampleBox.center = (150, 100) := by
  refine ⟨fun b hx hy => ?_,
    by norm_num [sampleBox, BoundingBox.width],
    by norm_num [sampleBox, BoundingBox.height],
    by norm_num [sampleBox, BoundingBox.area, BoundingBox.width, BoundingBox.height],
    by norm_num [sampleBox, BoundingBox.center]⟩
  refine ⟨?_, ?_, rfl, ?_, ?_, ?_, ?_⟩ <;>
    simp only [BoundingBox.width, BoundingBox.height, BoundingBox.center] <;>
    linarith

/-- Witness for C8 at the sample box of the test-suite. -/
theorem c8_witness :
    0 ≤ sampleBox.width ∧ 0 ≤ sampleBox.height ∧
    sampleBox.area = sampleBox.width * sampleBox.height ∧
    sampleBox.xmin ≤ sampleBox.center.1 ∧ sampleBox.center.1 ≤ sampleBox.xmax ∧
    sampleBox.ymin ≤ sampleBox.center.2 ∧ sampleBox.center.2 ≤ sampleBox.ymax :=
  c8_bounding_box_geometry.1 sampleBox (by norm_num [sampleBox]) (by norm_num [sampleBox])

/-- C9: get_reference_point projects each of the five reference point types
as specified (both axis centers for Center, the axis extremum paired with
the other axis center for the margins), euclidean_distance is the L2 norm
of the difference of the projected points (non-negative, its square is the
sum of squared coordinate differences), and the two concrete
center-to-center distances are 100 and about 141.42. -/
theorem c9_reference_points_and_distances :
    (∀ b : BoundingBox,
      get_reference_point b RefPointType.Center
          = ((b.xmin + b.xmax) / 2, (b.ymin + b.ymax) / 2) ∧
      get_reference_point b RefPointType.LeftMargin = (b.xmin, (b.ymin + b.ymax) / 2) ∧
      get_reference_point b RefPointType.RightMargin = (b.xmax, (b.ymin + b.ymax) / 2) ∧
      get_reference_point b RefPointType.TopMargin = ((b.xmin + b.xmax) / 2, b.ymin) ∧
      get_reference_point b RefPointType.BottomMargin = ((b.xmin + b.xmax) / 2, b.ymax)) ∧
    (∀ (b1 : BoundingBox) (r1 : RefPointType) (b2 : BoundingBox) (r2 : RefPointType),
      0 ≤ euclidean_distance b1 r1 b2 r2 ∧
      euclidean_distance b1 r1 b2 r2 ^ 2
        = (((get_reference_point b1 r1).1 - (get_reference_point b2 r2).1 : ℚ) : ℝ) ^ 2
          + (((get_reference_point b1 r1).2 - (get_reference_point b2 r2).2 : ℚ) : ℝ) ^ 2) ∧
    euclidean_distance boxA RefPointType.Center boxB RefPointType.Center = 100 ∧
    |euclidean_distance boxA RefPointType.Center boxD RefPointType.Center - 141.42|
      < 1 / 100 := by
  refine ⟨fun b => ⟨rfl, rfl, rfl, rfl, rfl⟩, fun b1 r1 b2 r2 => ?_, ?_, ?_⟩
  · exact ⟨Real.sqrt_nonneg _, Real.sq_sqrt (by positivity)⟩
  · have h : euclidean_distance boxA RefPointType.Center boxB RefPointType.Center
        = Real.sqrt 10000 := by
      simp only [euclidean_distance, get_reference_point, boxA, boxB]
      norm_num
    rw [h, show (10000 : ℝ) = 100 ^ 2 by norm_num,
      Real.sqrt_sq (by norm_num : (0 : ℝ) ≤ 100)]
  · have h : euclidean_distance boxA RefPointType.Center boxD RefPointType.Center
        = Real.sqrt 20000 := by
      simp only [euclidean_distance, get_reference_point, boxA, boxD]
      norm_num
    rw [h, abs_sub_lt_iff]
    constructor
    · have hub : Real.sqrt 20000 < 141.43 :=
        (Real.sqrt_lt' (by norm_num)).2 (by norm_num)
      linarith
    · have hlb : (141.41 : ℝ) < Real.sqrt 20000 :=
        (Real.lt_sqrt (by norm_num)).2 (by norm_num)
      linarith

end PerceMon
